import Mathlib

/-!
Verification of the campspots-ca map script (main.js and its variants).

The JavaScript source is shallowly embedded below.  JavaScript numbers are
modelled as exact rationals (`ℚ`): every numeric value appearing in the data
and in the claims is an exact decimal, and NaN is modelled by `Option` (`none`
= NaN).  Non-finite values (`Infinity`) are outside the model; no claim
mentions them.  Strings are Lean `String`s; JS `trim`/`toLowerCase`/
`toUpperCase` are modelled by the corresponding ASCII Lean functions, which
agree with JS on all inputs occurring in the claims.
-/

namespace Campspots

/-- A JSON-ish property value as stored in a GeoJSON property bag:
a string, a number, or `null`.  An *absent* key is modelled by `Option`
at the lookup site (`none` = JS `undefined`). -/
inductive JVal where
  | str (s : String)
  | num (q : ℚ)
  | jnull
deriving DecidableEq, Repr

/-- A property bag: a JS object, modelled as an association list in key
insertion order (JS objects have unique keys; `Object.keys` returns them in
insertion order for the non-integer-like keys used here). -/
abbrev PropBag := List (String × JVal)

/-- JS truthiness of a property value: `""`, `0` and `null` are falsy. -/
def truthy : JVal → Bool
  | .str s => s ≠ ""
  | .num q => q ≠ 0
  | .jnull => false

/-- ASCII lower-casing of one character (JS `toLowerCase` restricted to
ASCII, which covers every key and value in the data and the claims). -/
def asciiLower (c : Char) : Char :=
  if 'A' ≤ c && c ≤ 'Z' then Char.ofNat (c.toNat + 32) else c

/-- ASCII upper-casing of one character (JS `toUpperCase`, ASCII range). -/
def asciiUpper (c : Char) : Char :=
  if 'a' ≤ c && c ≤ 'z' then Char.ofNat (c.toNat - 32) else c

/-- `s.toLowerCase()` (ASCII). -/
def lowerStr (s : String) : String := ⟨s.data.map asciiLower⟩

/-- `s.toUpperCase()` (ASCII). -/
def upperStr (s : String) : String := ⟨s.data.map asciiUpper⟩

/-- `s.trim()`: strip leading and trailing whitespace. -/
def trimStr (s : String) : String :=
  ⟨((s.data.dropWhile Char.isWhitespace).reverse.dropWhile Char.isWhitespace).reverse⟩

/-- `props[k]`: first entry with key `k` (`none` = `undefined`). -/
def lookupKey (b : PropBag) (k : String) : Option JVal :=
  match b.find? (fun p => p.1 == k) with
  | some p => some p.2
  | none => none

/-- Decimal digits to a natural number. -/
def digitsToNat (ds : List Char) : Nat :=
  ds.foldl (fun a c => a * 10 + (c.toNat - 48)) 0

/-- Exponent suffix accepted by `parseFloat` (`e`/`E`, optional sign, digits);
an incomplete exponent is trailing garbage and contributes `0`. -/
def parseFloatExp (cs : List Char) : ℤ :=
  match cs with
  | 'e' :: r =>
    (fun (p : ℤ × List Char) =>
      let ds := p.2.takeWhile Char.isDigit
      if ds.isEmpty then 0 else p.1 * (digitsToNat ds : ℤ))
    (match r with
     | '-' :: t => ((-1 : ℤ), t)
     | '+' :: t => ((1 : ℤ), t)
     | _ => ((1 : ℤ), r))
  | 'E' :: r =>
    (fun (p : ℤ × List Char) =>
      let ds := p.2.takeWhile Char.isDigit
      if ds.isEmpty then 0 else p.1 * (digitsToNat ds : ℤ))
    (match r with
     | '-' :: t => ((-1 : ℤ), t)
     | '+' :: t => ((1 : ℤ), t)
     | _ => ((1 : ℤ), r))
  | _ => 0

/-- The exact rational `sgn · m · 10^e` (`m` the digits of the mantissa with
the decimal point removed, `e` the adjusted exponent).  Built with `mkRat`
over integer arithmetic so that it evaluates by kernel reduction. -/
def decToRat (sgn : ℤ) (m : ℕ) (e : ℤ) : ℚ :=
  if 0 ≤ e then mkRat (sgn * ((m * 10 ^ e.toNat : ℕ) : ℤ)) 1
  else mkRat (sgn * (m : ℤ)) (10 ^ (-e).toNat)

/-- JS `parseFloat` on decimal literals: skip leading whitespace, optional
sign, longest prefix `digits [. digits] [exponent]`; trailing garbage is
ignored; no leading digits at all gives NaN (`none`). -/
def parseFloatQ (s : String) : Option ℚ :=
  let cs := s.data.dropWhile Char.isWhitespace
  let sgn : ℤ × List Char :=
    match cs with
    | '-' :: r => (-1, r)
    | '+' :: r => (1, r)
    | _ => (1, cs)
  let ip := sgn.2.takeWhile Char.isDigit
  let cs1 := sgn.2.dropWhile Char.isDigit
  let fpRest : List Char × List Char :=
    match cs1 with
    | '.' :: r => (r.takeWhile Char.isDigit, r.dropWhile Char.isDigit)
    | _ => ([], cs1)
  if ip.isEmpty && fpRest.1.isEmpty then none
  else
    let m := digitsToNat ip * 10 ^ fpRest.1.length + digitsToNat fpRest.1
    some (decToRat sgn.1 m (parseFloatExp fpRest.2 - fpRest.1.length))

/-- Exponent suffix accepted by `Number(string)`: here the whole remainder
must be a well-formed exponent (or empty), otherwise the conversion is NaN. -/
def numberExp (cs : List Char) : Option ℤ :=
  match cs with
  | [] => some 0
  | 'e' :: r => numberExpTail r
  | 'E' :: r => numberExpTail r
  | _ => none
where
  numberExpTail (cs : List Char) : Option ℤ :=
    let sgn : ℤ × List Char :=
      match cs with
      | '-' :: t => (-1, t)
      | '+' :: t => (1, t)
      | _ => (1, cs)
    let ds := sgn.2.takeWhile Char.isDigit
    let rest := sgn.2.dropWhile Char.isDigit
    if ds.isEmpty || !rest.isEmpty then none else some (sgn.1 * (digitsToNat ds : ℤ))

/-- JS `Number(string)` restricted to decimal literals: trim, empty gives 0,
otherwise the whole string must be `[sign] digits [. digits] [exponent]`
(hex/binary/`Infinity` forms are outside the model; no claim uses them).
`none` = NaN. -/
def jsStrToNum (s : String) : Option ℚ :=
  let cs := (trimStr s).data
  if cs.isEmpty then some 0
  else
    let sgn : ℤ × List Char :=
      match cs with
      | '-' :: r => (-1, r)
      | '+' :: r => (1, r)
      | _ => (1, cs)
    let ip := sgn.2.takeWhile Char.isDigit
    let cs1 := sgn.2.dropWhile Char.isDigit
    let fpRest : List Char × List Char :=
      match cs1 with
      | '.' :: r => (r.takeWhile Char.isDigit, r.dropWhile Char.isDigit)
      | _ => ([], cs1)
    if ip.isEmpty && fpRest.1.isEmpty then none
    else
      match numberExp fpRest.2 with
      | none => none
      | some e =>
        let m := digitsToNat ip * 10 ^ fpRest.1.length + digitsToNat fpRest.1
        some (decToRat sgn.1 m (e - fpRest.1.length))

/-- Decimal digits of a natural number (fuel-based so it reduces in the
kernel); `acc` accumulates the low-order digits already produced. -/
def natCharsAux : Nat → Nat → List Char → List Char
  | 0, _, acc => acc
  | fuel + 1, n, acc =>
    if n < 10 then Char.ofNat (48 + n) :: acc
    else natCharsAux fuel (n / 10) (Char.ofNat (48 + n % 10) :: acc)

/-- Decimal representation of a natural number. -/
def natChars (n : Nat) : String :=
  ⟨natCharsAux (n + 1) n []⟩

/-- JS number-to-string for the finite decimal case: integers print as
digits; other rationals with a terminating decimal expansion print as
`intpart.fracpart` (minimal, so no trailing zeros, as JS does for doubles
that are exact decimals); non-terminating rationals fall back to a
`num/den` rendering (unreachable for JS doubles, and for every claim). -/
def jsNumToString (q : ℚ) : String :=
  if q = 0 then "0"
  else
    let sgn := if q.num < 0 then "-" else ""
    if q.den = 1 then sgn ++ natChars q.num.natAbs
    else
      match (List.range 40).find? (fun k => 10 ^ k % q.den == 0) with
      | some k =>
        let n := q.num.natAbs * (10 ^ k / q.den)
        let digits := (natChars n).data
        let padded :=
          if digits.length < k + 1 then
            List.replicate (k + 1 - digits.length) '0' ++ digits
          else digits
        let ipart : List Char := padded.take (padded.length - k)
        let fpart : List Char := padded.drop (padded.length - k)
        sgn ++ (⟨ipart⟩ : String) ++ "." ++ (⟨fpart⟩ : String)
      | none => sgn ++ natChars q.num.natAbs ++ "/" ++ natChars q.den

/-- JS `String(value)` on a property value. -/
def jsToString : JVal → String
  | .str s => s
  | .num q => jsNumToString q
  | .jnull => "null"

/-- A GeoJSON feature as the script sees it: its `properties` object
(`none` models `properties: null` or an absent `properties`).  The geometry
is opaque to every function embedded here (only the wrapping library reads
it), so it is not part of the model. -/
structure Feature where
  properties : Option PropBag
deriving DecidableEq, Repr

/-- What `getField` can receive as its `props` argument at run time:
`missing` is `null`/`undefined`; a genuine bag; or — via the duck-typed
`featureOrProps.properties` preamble — a primitive string or number boxed
to an object. -/
inductive PropsLike where
  | missing
  | bag (b : PropBag)
  | strObj (s : String)
  | numObj (q : ℚ)
deriving DecidableEq, Repr

/-- `!props` in `getField`: null/undefined, `""` and `0` are falsy. -/
def propsFalsy : PropsLike → Bool
  | .missing => true
  | .bag _ => false
  | .strObj s => s == ""
  | .numObj q => q == 0

/-- Own enumerable properties of a boxed string: its characters under the
index keys `"0"`, `"1"`, … (what `Object.keys` returns for a string). -/
def strObjBag (s : String) : PropBag :=
  s.data.enum.map (fun p => (natChars p.1, JVal.str ⟨[p.2]⟩))

/-- The key/value entries `Object.keys(props)` iterates over. -/
def ownBag : PropsLike → PropBag
  | .missing => []
  | .bag b => b
  | .strObj s => strObjBag s
  | .numObj _ => []

/-- `props[name]` for an exact key. -/
def exactGet : PropsLike → String → Option JVal
  | .missing, _ => none
  | .bag b, name => lookupKey b name
  | .strObj s, name =>
    (match lookupKey (strObjBag s) name with
     | some v => some v
     | none => if name == "length" then some (.num s.length) else none)
  | .numObj _, _ => none

/-- Discard `null` (the `!== undefined && !== null` guard). -/
def nonNull : Option JVal → Option JVal
  | some v => if v == JVal.jnull then none else some v
  | none => none

/-- The case-insensitive fallback loop of `getField`: scan the keys in
order and return the first case-insensitively matching key whose value is
non-null (a matching key with a null value is skipped, and the scan
continues). -/
def ciScan (b : PropBag) (lower : String) : Option JVal :=
  match b with
  | [] => none
  | (k, v) :: rest =>
    if lowerStr k == lower && !(v == JVal.jnull) then some v else ciScan rest lower

/-- The candidate loop of `getField` (source lines 15–28 of main.js):
for each candidate name, exact match first, then the case-insensitive
fallback, then the next candidate. -/
def getFieldLoop (props : PropsLike) : List String → Option JVal
  | [] => none
  | name :: rest =>
    match nonNull (exactGet props name) with
    | some v => some v
    | none =>
      match ciScan (ownBag props) (lowerStr name) with
      | some v => some v
      | none => getFieldLoop props rest

/-- `getField(props, names)` from main.js lines 12–30. -/
def getField (props : PropsLike) (names : List String) : Option JVal :=
  if propsFalsy props then none else getFieldLoop props names

/-- A JS argument to `isClosed`/`isCampsite`: `null`/`undefined`, a bare
property bag, or a full feature. -/
inductive JInput where
  | jsNull
  | bagIn (b : PropBag)
  | featIn (f : Feature)
deriving DecidableEq, Repr

/-- Own enumerable keys of a feature object whose `properties` is null or
absent, as seen when the feature itself is used as a property bag (the
`: featureOrProps` branch).  The geometry value is opaque; only its key
matters to the resolver, and no candidate list ever names it, so it is
modelled as null. -/
def featureAsProps (_f : Feature) : PropBag :=
  [("type", JVal.str "Feature"), ("properties", JVal.jnull), ("geometry", JVal.jnull)]

/-- A truthy primitive used where an object is expected. -/
def valueAsProps : JVal → PropsLike
  | .str s => .strObj s
  | .num q => .numObj q
  | .jnull => .missing

/-- The duck-typed preamble shared by `isClosed` and `isCampsite`:
`featureOrProps && featureOrProps.properties ? featureOrProps.properties
: featureOrProps`.  Note that for a bare bag that itself contains a truthy
`properties` entry, the code descends into that entry's value. -/
def resolveProps : JInput → PropsLike
  | .jsNull => .missing
  | .featIn f =>
    match f.properties with
    | some b => .bag b
    | none => .bag (featureAsProps f)
  | .bagIn b =>
    match lookupKey b "properties" with
    | some v => if truthy v then valueAsProps v else .bag b
    | none => .bag b

/-- `isClosed(featureOrProps)` from main.js lines 33–42. -/
def isClosedOn (x : JInput) : Bool :=
  match getField (resolveProps x) ["CLOSURE_IND", "CLOSR_IND"] with
  | none => false
  | some v => upperStr (trimStr (jsToString v)) == "Y"

/-- The string-coercion step of `isCampsite`: a string goes through
`parseFloat`; a number is already numeric; the (unreachable) null compares
as 0.  `none` = NaN. -/
def jsCoerceNum : JVal → Option ℚ
  | .str s => parseFloatQ s
  | .num q => some q
  | .jnull => some 0

/-- `isCampsite(featureOrProps)` from the campsites-only variant,
lines 45–58. -/
def isCampsiteOn (x : JInput) : Bool :=
  match getField (resolveProps x) ["DEFINED_CAMPSITES", "DFND_CAMP"] with
  | none => false
  | some v =>
    match jsCoerceNum v with
    | none => false
    | some q => decide (q > 0)

/-! ### Dates

`new Date(ms)` and `toLocaleDateString` belong to the host environment.
They are modelled exactly where ECMAScript pins them down: a time value is
valid iff its magnitude is at most 8.64e15 ms; day numbers convert to
calendar dates by the proleptic Gregorian calendar (the civil-from-days
algorithm below); the locale rendering is fixed to `en-US` in UTC
(`month/day/year`, no zero padding).  `new Date(string)` parsing is
mandated only for ISO 8601; the model accepts exactly the `YYYY-MM-DD`
date-only form and treats everything else as an invalid date. -/

/-- Truncation toward zero (JS `ToIntegerOrInfinity` on a finite value). -/
def ratTrunc (q : ℚ) : ℤ := q.num / (q.den : ℤ)

/-- A time value is a valid date iff `|ms| ≤ 8.64e15` (ECMAScript TimeClip). -/
def dateFromMsValid (ms : ℤ) : Bool := ms.natAbs ≤ 8640000000000000

/-- Days since 1970-01-01 of the Gregorian date `y-m-d`. -/
def daysFromCivil (y : ℤ) (m d : ℕ) : ℤ :=
  let y' : ℤ := if m ≤ 2 then y - 1 else y
  let era : ℤ := (if 0 ≤ y' then y' else y' - 399) / 400
  let yoe : ℤ := y' - era * 400
  let mp : ℕ := if 2 < m then m - 3 else m + 9
  let doy : ℤ := ((153 * mp + 2) / 5 + d - 1 : ℕ)
  let doe : ℤ := yoe * 365 + yoe / 4 - yoe / 100 + doy
  era * 146097 + doe - 719468

/-- Gregorian date (year, month, day) of a day number since 1970-01-01. -/
def civilFromDays (z : ℤ) : ℤ × ℕ × ℕ :=
  let z' := z + 719468
  let era : ℤ := (if 0 ≤ z' then z' else z' - 146096) / 146097
  let doe : ℤ := z' - era * 146097
  let yoe : ℤ := (doe - doe / 1460 + doe / 36524 - doe / 146096) / 365
  let y : ℤ := yoe + era * 400
  let doy : ℤ := doe - (365 * yoe + yoe / 4 - yoe / 100)
  let mp : ℤ := (5 * doy + 2) / 153
  let d : ℕ := (doy - (153 * mp + 2) / 5 + 1).toNat
  let m : ℕ := (if mp < 10 then mp + 3 else mp - 9).toNat
  (if m ≤ 2 then y + 1 else y, m, d)

/-- Gregorian leap year. -/
def isLeap (y : ℤ) : Bool := (y % 4 == 0 && y % 100 != 0) || y % 400 == 0

/-- Days in a Gregorian month. -/
def daysInMonth (y : ℤ) (m : ℕ) : ℕ :=
  if m == 2 then (if isLeap y then 29 else 28)
  else if m == 4 || m == 6 || m == 9 || m == 11 then 30 else 31

/-- Split a character list on a separator (the pieces, in order). -/
def splitCharAux (sep : Char) : List Char → List Char → List (List Char)
  | [], acc => [acc.reverse]
  | c :: rest, acc =>
    if c == sep then acc.reverse :: splitCharAux sep rest []
    else splitCharAux sep rest (c :: acc)

/-- `new Date(string)`: the mandated ISO `YYYY-MM-DD` date-only form,
giving midnight UTC; anything else is an invalid date (`none`). -/
def jsDateParse (s : String) : Option ℤ :=
  match splitCharAux '-' s.data [] with
  | [ys, ms, ds] =>
    if ys.length == 4 && ys.all Char.isDigit
        && ms.length == 2 && ms.all Char.isDigit
        && ds.length == 2 && ds.all Char.isDigit then
      let y : ℤ := (digitsToNat ys : ℤ)
      let mo := digitsToNat ms
      let d := digitsToNat ds
      if 1 ≤ mo && mo ≤ 12 && 1 ≤ d && d ≤ daysInMonth y mo then
        some (daysFromCivil y mo d * 86400000)
      else none
    else none
  | _ => none

/-- Decimal representation of an integer. -/
def intChars (i : ℤ) : String :=
  if i < 0 then "-" ++ natChars i.natAbs else natChars i.natAbs

/-- `d.toLocaleDateString()` for a valid time value, fixed to `en-US`/UTC:
`month/day/year` without zero padding. -/
def jsLocaleDate (ms : ℤ) : String :=
  let day := Int.fdiv ms 86400000
  let c := civilFromDays day
  natChars c.2.1 ++ "/" ++ natChars c.2.2 ++ "/" ++ intChars c.1

/-- `formatClosureDate(value)` from main.js lines 44–56: falsy input gives
`""`; otherwise stringify, try `Number`; a non-NaN number strictly greater
than 1,000,000,000 is taken as epoch milliseconds, anything else is handed
to the date-string parser; an invalid date falls back to the string form. -/
def formatClosureDate (value : Option JVal) : String :=
  match value with
  | none => ""
  | some v =>
    if truthy v = false then ""
    else
      let asString := jsToString v
      let d : Option ℤ :=
        match jsStrToNum asString with
        | some q =>
          if q > 1000000000 then
            (if dateFromMsValid (ratTrunc q) then some (ratTrunc q) else none)
          else jsDateParse asString
        | none => jsDateParse asString
      match d with
      | some ms => jsLocaleDate ms
      | none => asString

/-- Modelled from the spec: §4.3 of the spec states the epoch-milliseconds
branch is taken when "the magnitude exceeds 1,000,000,000".  This definition
follows the spec's words (`|q| > 1e9`), to be compared with
`formatClosureDate`, whose source tests the signed value `q > 1e9`. -/
def formatClosureDateSpec (value : Option JVal) : String :=
  match value with
  | none => ""
  | some v =>
    if truthy v = false then ""
    else
      let asString := jsToString v
      let d : Option ℤ :=
        match jsStrToNum asString with
        | some q =>
          if q > 1000000000 ∨ q < -1000000000 then
            (if dateFromMsValid (ratTrunc q) then some (ratTrunc q) else none)
          else jsDateParse asString
        | none => jsDateParse asString
      match d with
      | some ms => jsLocaleDate ms
      | none => asString

/-! ### Popup formatter (main.js `onEachFeature`, lines 87–152) -/

/-- JS `x || fallback` on a resolver result. -/
def orElseVal (o : Option JVal) (fallback : JVal) : JVal :=
  match o with
  | some v => if truthy v then v else fallback
  | none => fallback

/-- `getField(props, [...]) || ""`. -/
def orEmptyVal (o : Option JVal) : JVal := orElseVal o (.str "")

/-- `const name = getField(props, ["PROJECT_NAME", "PROJECT_NM"]) ||
"Unnamed recreation site"`. -/
def nameValOf (b : PropBag) : JVal :=
  orElseVal (getField (.bag b) ["PROJECT_NAME", "PROJECT_NM"])
    (.str "Unnamed recreation site")

/-- The resolved `closureType`/`closureDate`/`closureComment` values. -/
def closureTypeValOf (b : PropBag) : JVal :=
  orEmptyVal (getField (.bag b) ["CLOSURE_TYPE", "CLOSR_TYPE"])

def closureDateValOf (b : PropBag) : JVal :=
  orEmptyVal (getField (.bag b) ["CLOSURE_DATE", "CLOSR_DT"])

def closureCommentValOf (b : PropBag) : JVal :=
  orEmptyVal (getField (.bag b) ["CLOSURE_COMMENT", "CLOSR_COM"])

/-- `const closed = isClosed(props)` — the popup builder calls the predicate
on the bare bag. -/
def closedOf (b : PropBag) : Bool := isClosedOn (.bagIn b)

/-- `Reason: …` is appended only when closed and the value is truthy. -/
def reasonSegOf (b : PropBag) : String :=
  if closedOf b && truthy (closureTypeValOf b) then
    "Reason: " ++ jsToString (closureTypeValOf b) ++ "<br/>"
  else ""

/-- `Since: …` is appended only when closed and the value is truthy. -/
def sinceSegOf (b : PropBag) : String :=
  if closedOf b && truthy (closureDateValOf b) then
    "Since: " ++ formatClosureDate (some (closureDateValOf b)) ++ "<br/>"
  else ""

/-- The italic closure comment, only when closed and truthy. -/
def commentSegOf (b : PropBag) : String :=
  if closedOf b && truthy (closureCommentValOf b) then
    "<em>" ++ jsToString (closureCommentValOf b) ++ "</em><br/>"
  else ""

/-- The `statusHtml` accumulator after the conditional appends. -/
def statusHtmlOf (b : PropBag) : String :=
  (if closedOf b then "<strong>Status: CLOSED</strong><br/>"
   else "<strong>Status: Open (check latest info)</strong><br/>")
  ++ reasonSegOf b ++ sinceSegOf b ++ commentSegOf b

/-- `campsiteHtml`: rendered whenever the resolver finds a value, even a
falsy one (`!== undefined && !== null`, not `||`). -/
def campsiteHtmlOf (b : PropBag) : String :=
  match getField (.bag b) ["DEFINED_CAMPSITES", "DFND_CAMP"] with
  | some v => "Campsites: " ++ jsToString v ++ "<br/>"
  | none => ""

def locationHtmlOf (b : PropBag) : String :=
  let v := orEmptyVal (getField (.bag b) ["SITE_LOCATION", "SITE_LOC"])
  if truthy v then "Location: " ++ jsToString v ++ "<br/>" else ""

def descHtmlOf (b : PropBag) : String :=
  let v := orEmptyVal (getField (.bag b) ["SITE_DESCRIPTION", "ST_DESC"])
  if truthy v then jsToString v ++ "<br/>" else ""

def dirHtmlOf (b : PropBag) : String :=
  let v := orEmptyVal (getField (.bag b) ["DRIVING_DIRECTIONS", "DRV_DIRCTN"])
  if truthy v then "<br/><strong>Directions:</strong> " ++ jsToString v else ""

/-- The two official links built from a forest file id (the template
literal of lines 133–138, whitespace included). -/
def linksHtml (id : String) : String :=
  "\n      <br/><br/>\n      <strong>Official info &amp; fees:</strong><br/>\n      <a href=\""
  ++ ("https://beta.sitesandtrailsbc.ca/resource/" ++ id)
  ++ "\" target=\"_blank\" rel=\"noopener\">Beta site page</a><br/>\n      <a href=\""
  ++ ("https://www.sitesandtrailsbc.ca/search/search-result.aspx?site=" ++ id ++ "&type=Site")
  ++ "\" target=\"_blank\" rel=\"noopener\">Original site page</a>\n    "

/-- `officialLinksHtml`: present only for a truthy forest file id. -/
def officialLinksOf (b : PropBag) : String :=
  let v := orEmptyVal (getField (.bag b) ["FOREST_FILE_ID", "F_FILE_ID"])
  if truthy v then linksHtml (jsToString v) else ""

/-- The `popupHtml` template literal of lines 141–149 (with its exact
newlines and indentation), as a function of the seven interpolated pieces. -/
def mkPopup (name status campsites location desc dirs links : String) : String :=
  "\n    <strong>" ++ name ++ "</strong><br/>\n    " ++ status ++ "\n    "
  ++ campsites ++ "\n    " ++ location ++ "\n    " ++ desc ++ "\n    "
  ++ dirs ++ "\n    " ++ links ++ "\n  "

/-- The popup HTML bound for a property bag (`onEachFeature` body). -/
def popupFor (b : PropBag) : String :=
  mkPopup (jsToString (nameValOf b)) (statusHtmlOf b) (campsiteHtmlOf b)
    (locationHtmlOf b) (descHtmlOf b) (dirHtmlOf b) (officialLinksOf b)

/-- `const props = feature.properties || {}` then the popup build. -/
def popupForFeature (f : Feature) : String :=
  popupFor (f.properties.getD [])

/-! ### Layer partitioner -/

def isCampsiteF (f : Feature) : Bool := isCampsiteOn (.featIn f)

def isClosedF (f : Feature) : Bool := isClosedOn (.featIn f)

/-- The partition of a feature collection into (open, closed, excluded).
With campsite filtering on (the campsites-only variant, lines 187–190):
`campsiteFeatures = allFeatures.filter(isCampsite)`, then open/closed by
`isClosed`; the excluded group is the complement of the campsite filter.
With filtering off (main.js layer filters, lines 59–85): open/closed are
drawn from all features and nothing is excluded. -/
def partitionFeatures (campFilter : Bool) (fs : List Feature) :
    List Feature × List Feature × List Feature :=
  let inScope := if campFilter then fs.filter isCampsiteF else fs
  (inScope.filter (fun f => !isClosedF f),
   inScope.filter (fun f => isClosedF f),
   if campFilter then fs.filter (fun f => !isCampsiteF f) else [])

/-! ### The LAT/LON marker loop (part_001, lines 137–186) -/

/-- `getProps(feature)` from the LAT/LON variant: a missing feature or a
null `properties` degrades to `{}`. -/
def getProps (fe : Option Feature) : PropBag :=
  match fe with
  | some f => f.properties.getD []
  | none => []

/-- One coordinate: direct property access, strings through `parseFloat`,
and anything that does not end up a non-NaN number means "skip". -/
def coordOf (props : PropBag) (key : String) : Option ℚ :=
  match lookupKey props key with
  | some (.str s) => parseFloatQ s
  | some (.num q) => some q
  | some .jnull => none
  | none => none

/-- Whether a feature has usable coordinates (otherwise the loop body
`return`s, skipping it). -/
def hasValidCoords (props : PropBag) : Bool :=
  (coordOf props "LATITUDE").isSome && (coordOf props "LONGITUDE").isSome

/-- The LAT/LON variant's `isClosed` (part_001 lines 17–26), as invoked at
its call site `isClosed(props)` on a property bag (line 156): first the
shared duck-typed preamble `featureOrProps && featureOrProps.properties ?
featureOrProps.properties : featureOrProps` (so a bag with a truthy
`properties` entry is replaced by that entry's value), then
`(props.CLOSURE_IND || props.CLOSR_IND || "").toString().trim()
.toUpperCase() === "Y"` via direct (boxed, exact-key) property access and
falsy `||` chaining. -/
def isClosedB (b : PropBag) : Bool :=
  let props := resolveProps (.bagIn b)
  let v := orElseVal (exactGet props "CLOSURE_IND")
             (orElseVal (exactGet props "CLOSR_IND") (.str ""))
  upperStr (trimStr (jsToString v)) == "Y"

/-- A rendered circle marker (the popup content is orthogonal to the
grouping claims and is not part of the marker model). -/
structure Marker where
  lat : ℚ
  lng : ℚ
  closed : Bool
deriving DecidableEq, Repr

/-- The `data.features.forEach` pass of part_001: skip features without
usable coordinates, classify the rest, and push a marker onto the closed
or the open layer, preserving order. -/
def buildLayers : List (Option Feature) → List Marker × List Marker
  | [] => ([], [])
  | fe :: rest =>
    let props := getProps fe
    match coordOf props "LATITUDE", coordOf props "LONGITUDE" with
    | some lat, some lng =>
      let closed := isClosedB props
      let m : Marker := ⟨lat, lng, closed⟩
      let r := buildLayers rest
      if closed then (r.1, m :: r.2) else (m :: r.1, r.2)
    | _, _ => buildLayers rest

/-! ### Payload validation (the fetch then-handlers) -/

/-- The shape of a fetched payload as the `!data ||
!Array.isArray(data.features)` check distinguishes it: a falsy value, a
value without an array-valued `features` field, or a proper feature
collection. -/
inductive Payload where
  | nullish
  | noFeatureArray
  | featureArray (fs : List Feature)
deriving DecidableEq, Repr

def hasFeatureArray : Payload → Bool
  | .featureArray _ => true
  | _ => false

/-- The rec-sites then-handler (campsites-only variant, lines 181–199):
a structurally invalid payload logs and returns before any group is built;
otherwise the three groups are produced. -/
def loadRecSites (p : Payload) :
    Option (List Feature × List Feature × List Feature) :=
  match p with
  | .featureArray fs => some (partitionFeatures true fs)
  | _ => none

/-- The Crown-land then-handler (part_001, lines 469–477): same structural
check, then the features are added as-is. -/
def loadCrown (p : Payload) : Option (List Feature) :=
  match p with
  | .featureArray fs => some fs
  | _ => none

/-- The two sources load independently (separate `fetch` chains with
separate handlers): the view's outcome is the pair of the two independent
outcomes. -/
def renderView (recSites crown : Payload) :
    Option (List Feature × List Feature × List Feature) × Option (List Feature) :=
  (loadRecSites recSites, loadCrown crown)

/-- A bag whose own `properties` entry, if any, is falsy: for such bags the
duck-typed preamble of `isClosed`/`isCampsite` really uses the bag itself. -/
def noTruthyProperties (b : PropBag) : Bool :=
  (lookupKey b "properties").all (fun v => !truthy v)

/-- Truthiness of an optional value (`!value` on a possibly-undefined
argument). -/
def truthyOpt : Option JVal → Bool
  | none => false
  | some v => truthy v

/-- The five-feature example of the spec: two closed campsites (one under
each naming convention), two open campsites, one feature with campsite
count 0. -/
def exClosed1 : Feature :=
  ⟨some [("DEFINED_CAMPSITES", .num 4), ("CLOSURE_IND", .str "Y")]⟩

def exClosed2 : Feature :=
  ⟨some [("DFND_CAMP", .str "2"), ("CLOSR_IND", .str "y")]⟩

def exOpen1 : Feature := ⟨some [("DEFINED_CAMPSITES", .num 6)]⟩

def exOpen2 : Feature :=
  ⟨some [("DEFINED_CAMPSITES", .str "1"), ("CLOSURE_IND", .str "N")]⟩

def exZero : Feature := ⟨some [("DEFINED_CAMPSITES", .num 0)]⟩

def exFive : List Feature := [exClosed1, exOpen1, exClosed2, exOpen2, exZero]

/-! ### Lemmas -/

theorem resolveProps_bagIn (b : PropBag) (h : noTruthyProperties b = true) :
    resolveProps (.bagIn b) = .bag b := by
  simp only [resolveProps]
  unfold noTruthyProperties at h
  cases hl : lookupKey b "properties" with
  | none => rfl
  | some v =>
    rw [hl] at h
    simp only [Option.all_some, Bool.not_eq_true'] at h
    simp [h]

theorem getField_cons_exact (b : PropBag) (n : String) (rest : List String)
    (v : JVal) (h : nonNull (exactGet (.bag b) n) = some v) :
    getField (.bag b) (n :: rest) = some v := by
  simp [getField, propsFalsy, getFieldLoop, h]

theorem getField_cons_ci (b : PropBag) (n : String) (rest : List String)
    (v : JVal) (h1 : nonNull (exactGet (.bag b) n) = none)
    (h2 : ciScan b (lowerStr n) = some v) :
    getField (.bag b) (n :: rest) = some v := by
  simp [getField, propsFalsy, getFieldLoop, ownBag, h1, h2]

theorem getField_cons_skip (b : PropBag) (n : String) (rest : List String)
    (h1 : nonNull (exactGet (.bag b) n) = none)
    (h2 : ciScan b (lowerStr n) = none) :
    getField (.bag b) (n :: rest) = getField (.bag b) rest := by
  simp [getField, propsFalsy, getFieldLoop, ownBag, h1, h2]

theorem getField_none_of_all_fail (b : PropBag) (names : List String)
    (h : ∀ n ∈ names, nonNull (exactGet (.bag b) n) = none ∧
      ciScan b (lowerStr n) = none) :
    getField (.bag b) names = none := by
  induction names with
  | nil => simp [getField, propsFalsy, getFieldLoop]
  | cons n rest ih =>
    have hn := h n (List.mem_cons_self n rest)
    rw [getField_cons_skip b n rest hn.1 hn.2]
    exact ih (fun m hm => h m (List.mem_cons_of_mem n hm))

theorem str_mk_ne_empty (l : List Char) (h : l ≠ []) : (⟨l⟩ : String) ≠ "" :=
  fun he => h (congrArg String.data he)

theorem append_ne_empty_left (a b : String) (h : a ≠ "") : a ++ b ≠ "" := by
  intro he
  have hd : a.data ++ b.data = [] := by
    have := congrArg String.data he
    simpa [String.data_append] using this
  exact h (congrArg String.mk (List.append_eq_nil.mp hd).1)

theorem append_ne_empty_right (a b : String) (h : b ≠ "") : a ++ b ≠ "" := by
  intro he
  have hd : a.data ++ b.data = [] := by
    have := congrArg String.data he
    simpa [String.data_append] using this
  exact h (congrArg String.mk (List.append_eq_nil.mp hd).2)

theorem natCharsAux_ne_nil_of_acc (fuel n : ℕ) (acc : List Char) (h : acc ≠ []) :
    natCharsAux fuel n acc ≠ [] := by
  induction fuel generalizing n acc with
  | zero => exact h
  | succ fuel ih =>
    rw [natCharsAux]
    split
    · exact List.cons_ne_nil _ _
    · exact ih _ _ (List.cons_ne_nil _ _)

theorem natChars_ne_empty (n : ℕ) : natChars n ≠ "" := by
  apply str_mk_ne_empty
  rw [natCharsAux]
  split
  · exact List.cons_ne_nil _ _
  · exact natCharsAux_ne_nil_of_acc _ _ _ (List.cons_ne_nil _ _)

theorem jsNumToString_ne_empty (q : ℚ) : jsNumToString q ≠ "" := by
  unfold jsNumToString
  split
  · decide
  · split <;> split <;>
      first
        | exact append_ne_empty_right _ _ (natChars_ne_empty _)
        | (split <;>
            first
              | exact append_ne_empty_left _ _
                  (append_ne_empty_right _ "." (by decide))
              | exact append_ne_empty_right _ _ (natChars_ne_empty _))

theorem jsLocaleDate_ne_empty (ms : ℤ) : jsLocaleDate ms ≠ "" := by
  unfold jsLocaleDate
  exact append_ne_empty_left _ _ (append_ne_empty_right _ "/" (by decide))

theorem jsToString_ne_empty_of_truthy (w : JVal) (h : truthy w = true) :
    jsToString w ≠ "" := by
  cases w with
  | str s => simpa [truthy] using h
  | num q => exact jsNumToString_ne_empty q
  | jnull => simp [truthy] at h

/-! ### Claims -/

/-- C1: `getField` returns the first non-null/non-undefined value, trying
candidates in order with exact match before case-insensitive match within a
candidate; a bag holding only the lowercase key `closr_ind: "Y"` resolves
`["CLOSURE_IND", "CLOSR_IND"]` to `"Y"`; when no candidate resolves the
result is the absent sentinel `none` (JS `undefined`), so a stored numeric
`0` is returned as `0`, distinguishable from missing. -/
theorem getField_resolution :
    (∀ (b : PropBag) (n : String) (rest : List String) (v : JVal),
      nonNull (exactGet (.bag b) n) = some v →
      getField (.bag b) (n :: rest) = some v) ∧
    (∀ (b : PropBag) (n : String) (rest : List String) (v : JVal),
      nonNull (exactGet (.bag b) n) = none →
      ciScan b (lowerStr n) = some v →
      getField (.bag b) (n :: rest) = some v) ∧
    (∀ (b : PropBag) (n : String) (rest : List String),
      nonNull (exactGet (.bag b) n) = none →
      ciScan b (lowerStr n) = none →
      getField (.bag b) (n :: rest) = getField (.bag b) rest) ∧
    (∀ (b : PropBag) (names : List String),
      (∀ n ∈ names, nonNull (exactGet (.bag b) n) = none ∧
        ciScan b (lowerStr n) = none) →
      getField (.bag b) names = none) ∧
    getField (.bag [("closr_ind", .str "Y")]) ["CLOSURE_IND", "CLOSR_IND"]
      = some (.str "Y") ∧
    getField (.bag [("DFND_CAMP", .num 0)]) ["DEFINED_CAMPSITES", "DFND_CAMP"]
      = some (.num 0) := by
  refine ⟨getField_cons_exact, getField_cons_ci, getField_cons_skip,
    getField_none_of_all_fail, ?_, ?_⟩ <;> decide

/-- Witness for C1: the three conditional components applied at concrete
inputs (exact hit, case-insensitive hit, candidate skip, and the all-fail
case). -/
theorem getField_resolution_witness :
    getField (.bag [("A", JVal.str "x")]) ["A", "B"] = some (.str "x") ∧
    getField (.bag [("a", JVal.str "x")]) ["A"] = some (.str "x") ∧
    getField (.bag [("b", JVal.str "x")]) ["A", "b"]
      = getField (.bag [("b", JVal.str "x")]) ["b"] ∧
    getField (.bag [("b", JVal.str "x")]) ["A"] = none :=
  ⟨getField_resolution.1 [("A", JVal.str "x")] "A" ["B"] (.str "x") (by decide),
   getField_resolution.2.1 [("a", JVal.str "x")] "A" [] (.str "x") (by decide)
     (by decide),
   getField_resolution.2.2.1 [("b", JVal.str "x")] "A" ["b"] (by decide)
     (by decide),
   getField_resolution.2.2.2.1 [("b", JVal.str "x")] ["A"]
     (by intro n hn; simp only [List.mem_singleton] at hn; subst hn
         exact ⟨by decide, by decide⟩)⟩

/-- C4: with campsite filtering enabled the partition's three groups are
pairwise disjoint and each preserves the original feature order (each group
is a sublist of the input, filtering being a single stable pass); on the
five-feature example it yields open=2, closed=2, excluded=1, and with
filtering disabled excluded is empty and the zero-campsite feature joins
the open group as its closure indicator dictates. -/
theorem partition_groups :
    (∀ (fs : List Feature) (f : Feature),
      (f ∈ (partitionFeatures true fs).1 → f ∉ (partitionFeatures true fs).2.1) ∧
      (f ∈ (partitionFeatures true fs).1 → f ∉ (partitionFeatures true fs).2.2) ∧
      (f ∈ (partitionFeatures true fs).2.1 → f ∉ (partitionFeatures true fs).2.2)) ∧
    (∀ (campFilter : Bool) (fs : List Feature),
      (partitionFeatures campFilter fs).1.Sublist fs ∧
      (partitionFeatures campFilter fs).2.1.Sublist fs ∧
      (partitionFeatures campFilter fs).2.2.Sublist fs) ∧
    (partitionFeatures true exFive).1.length = 2 ∧
    (partitionFeatures true exFive).2.1.length = 2 ∧
    (partitionFeatures true exFive).2.2.length = 1 ∧
    (partitionFeatures false exFive).2.2 = [] ∧
    isClosedF exZero = false ∧
    exZero ∈ (partitionFeatures false exFive).1 ∧
    (partitionFeatures false exFive).1.length = 3 ∧
    (partitionFeatures false exFive).2.1.length = 2 := by
  refine ⟨?_, ?_, by decide, by decide, by decide, by decide, by decide,
    by decide, by decide, by decide⟩
  · intro fs f
    simp only [partitionFeatures, if_true, List.mem_filter]
    refine ⟨fun h hc => ?_, fun h hc => ?_, fun h hc => ?_⟩
    · rw [hc.2] at h; exact absurd h.2 (by decide)
    · rw [h.1.2] at hc; exact absurd hc.2 (by decide)
    · rw [h.1.2] at hc; exact absurd hc.2 (by decide)
  · intro campFilter fs
    cases campFilter with
    | true =>
      exact ⟨(List.filter_sublist _).trans (List.filter_sublist _),
        (List.filter_sublist _).trans (List.filter_sublist _),
        List.filter_sublist _⟩
    | false =>
      exact ⟨List.filter_sublist _, List.filter_sublist _, List.nil_sublist _⟩

/-- Witness for C4's conditional parts: disjointness instantiated on the
example collection at a concrete member of the open group. -/
theorem partition_groups_witness :
    exOpen1 ∈ (partitionFeatures true exFive).1 ∧
    exOpen1 ∉ (partitionFeatures true exFive).2.1 :=
  ⟨by decide, (partition_groups.1 exFive exOpen1).1 (by decide)⟩

/-- C7: features without usable coordinates (the LAT/LON variant's notion
of a malformed/geometry-less feature, including a null feature or null
properties) are skipped: they land in neither rendered group, and the pass
continues — the layers built from any collection equal those built from
just its well-formed features, with one marker per well-formed feature. -/
theorem malformed_features_skipped :
    (∀ (fe : Option Feature) (fs : List (Option Feature)),
      hasValidCoords (getProps fe) = false →
      buildLayers (fe :: fs) = buildLayers fs) ∧
    (∀ fs : List (Option Feature),
      buildLayers fs
        = buildLayers (fs.filter (fun fe => hasValidCoords (getProps fe)))) ∧
    (∀ fs : List (Option Feature),
      (buildLayers fs).1.length + (buildLayers fs).2.length
        = (fs.filter (fun fe => hasValidCoords (getProps fe))).length) := by
  have skip : ∀ (fe : Option Feature) (fs : List (Option Feature)),
      hasValidCoords (getProps fe) = false →
      buildLayers (fe :: fs) = buildLayers fs := by
    intro fe fs h
    cases hla : coordOf (getProps fe) "LATITUDE" with
    | none => simp [buildLayers, hla]
    | some lat =>
      cases hlo : coordOf (getProps fe) "LONGITUDE" with
      | none => simp [buildLayers, hla, hlo]
      | some lng => simp [hasValidCoords, hla, hlo] at h
  have step : ∀ (fe : Option Feature) (fs : List (Option Feature)) lat lng,
      coordOf (getProps fe) "LATITUDE" = some lat →
      coordOf (getProps fe) "LONGITUDE" = some lng →
      buildLayers (fe :: fs) =
        (if isClosedB (getProps fe) then
          ((buildLayers fs).1, ⟨lat, lng, isClosedB (getProps fe)⟩ :: (buildLayers fs).2)
         else
          (⟨lat, lng, isClosedB (getProps fe)⟩ :: (buildLayers fs).1, (buildLayers fs).2)) := by
    intro fe fs lat lng hla hlo
    simp [buildLayers, hla, hlo]
  refine ⟨skip, ?_, ?_⟩
  · intro fs
    induction fs with
    | nil => rfl
    | cons fe rest ih =>
      cases hv : hasValidCoords (getProps fe) with
      | false => rw [skip fe rest hv, List.filter_cons_of_neg (by simp [hv]), ih]
      | true =>
        rw [hasValidCoords, Bool.and_eq_true] at hv
        obtain ⟨lat, hla⟩ := Option.isSome_iff_exists.mp hv.1
        obtain ⟨lng, hlo⟩ := Option.isSome_iff_exists.mp hv.2
        rw [List.filter_cons_of_pos (by rw [hasValidCoords, hla, hlo]; rfl),
          step fe rest lat lng hla hlo, step fe _ lat lng hla hlo, ih]
  · intro fs
    induction fs with
    | nil => rfl
    | cons fe rest ih =>
      cases hv : hasValidCoords (getProps fe) with
      | false =>
        rw [skip fe rest hv, List.filter_cons_of_neg (by simp [hv]), ih]
      | true =>
        rw [hasValidCoords, Bool.and_eq_true] at hv
        obtain ⟨lat, hla⟩ := Option.isSome_iff_exists.mp hv.1
        obtain ⟨lng, hlo⟩ := Option.isSome_iff_exists.mp hv.2
        rw [List.filter_cons_of_pos (by rw [hasValidCoords, hla, hlo]; rfl),
          step fe rest lat lng hla hlo]
        cases hc : isClosedB (getProps fe) <;> simp [hc] <;> omega

/-- Witness for C7: a feature with an unparsable latitude is dropped from a
concrete pass, leaving exactly the well-formed feature's marker. -/
theorem malformed_features_skipped_witness :
    buildLayers [some ⟨some [("LATITUDE", JVal.str "x")]⟩,
        some ⟨some [("LATITUDE", JVal.num 50), ("LONGITUDE", JVal.num 120)]⟩]
      = buildLayers
          [some ⟨some [("LATITUDE", JVal.num 50), ("LONGITUDE", JVal.num 120)]⟩] ∧
    (buildLayers [some ⟨some [("LATITUDE", JVal.str "x")]⟩]).1.length
      + (buildLayers [some ⟨some [("LATITUDE", JVal.str "x")]⟩]).2.length = 0 :=
  ⟨malformed_features_skipped.1 (some ⟨some [("LATITUDE", JVal.str "x")]⟩)
      [some ⟨some [("LATITUDE", JVal.num 50), ("LONGITUDE", JVal.num 120)]⟩]
      (by decide),
   by
    rw [malformed_features_skipped.2.2 [some ⟨some [("LATITUDE", JVal.str "x")]⟩]]
    decide⟩

/-- C8: a fetched payload that is not an object with an array-valued
`features` field makes the then-handler log and return before any group is
built (`loadRecSites` yields nothing exactly for such payloads, and a
well-formed payload always yields the three groups); the failure is
confined to that source — the other source's outcome is whatever its own
payload gives. -/
theorem malformed_payload_rejected :
    (∀ p : Payload, loadRecSites p = none ↔ hasFeatureArray p = false) ∧
    (∀ fs : List Feature,
      loadRecSites (.featureArray fs) = some (partitionFeatures true fs)) ∧
    (∀ crown : Payload, renderView .noFeatureArray crown = (none, loadCrown crown)) ∧
    (∀ crown : Payload, renderView .nullish crown = (none, loadCrown crown)) ∧
    (∀ rec : Payload, ∀ fs : List Feature,
      renderView rec (.featureArray fs) = (loadRecSites rec, some fs)) := by
  refine ⟨?_, fun _ => rfl, fun _ => rfl, fun _ => rfl, fun _ _ => rfl⟩
  intro p
  cases p <;> simp [loadRecSites, hasFeatureArray]

/-- C2 (counterexample): the claim quantifies over *every* bag containing a
closure-indicator key whose value normalizes to `"Y"`.  Two bags refute it:
one whose own truthy `properties` entry makes the duck-typed preamble
replace the bag, so the indicator is never seen; and one where the first
candidate `CLOSURE_IND` resolves to `"N"` so the `CLOSR_IND: "Y"` entry the
claim points at is never consulted. -/
theorem isClosed_literal_counterexample :
    lookupKey [("properties", JVal.str "x"), ("CLOSURE_IND", JVal.str "Y")]
      "CLOSURE_IND" = some (.str "Y") ∧
    upperStr (trimStr "Y") = "Y" ∧
    isClosedOn (.bagIn [("properties", JVal.str "x"),
      ("CLOSURE_IND", JVal.str "Y")]) = false ∧
    lookupKey [("CLOSURE_IND", JVal.str "N"), ("CLOSR_IND", JVal.str "Y")]
      "CLOSR_IND" = some (.str "Y") ∧
    isClosedOn (.bagIn [("CLOSURE_IND", JVal.str "N"),
      ("CLOSR_IND", JVal.str "Y")]) = false := by
  decide

/-- C2 (amended): for every bag with no truthy `properties` entry,
`isClosed` is true iff the *resolved* closure-indicator value (candidates
`CLOSURE_IND` then `CLOSR_IND`, any key casing via the resolver) trims and
upper-cases to `"Y"`; in particular `"y"`, `"Y"`, `" Y "` (either naming
convention, lowercase keys included) give true, while `"N"`, `""`, other
strings and an absent attribute give false. -/
theorem isClosed_resolved_iff :
    (∀ b : PropBag, noTruthyProperties b = true →
      (isClosedOn (.bagIn b) = true ↔
        ∃ v, getField (.bag b) ["CLOSURE_IND", "CLOSR_IND"] = some v ∧
          upperStr (trimStr (jsToString v)) = "Y")) ∧
    isClosedOn (.bagIn [("CLOSURE_IND", JVal.str "y")]) = true ∧
    isClosedOn (.bagIn [("CLOSURE_IND", JVal.str " Y ")]) = true ∧
    isClosedOn (.bagIn [("closr_ind", JVal.str "Y")]) = true ∧
    isClosedOn (.bagIn [("CLOSR_IND", JVal.str "y")]) = true ∧
    isClosedOn (.bagIn [("CLOSURE_IND", JVal.str "N")]) = false ∧
    isClosedOn (.bagIn [("CLOSURE_IND", JVal.str "")]) = false ∧
    isClosedOn (.bagIn [("CLOSURE_IND", JVal.str "closed")]) = false ∧
    isClosedOn (.bagIn ([] : PropBag)) = false := by
  refine ⟨?_, by decide, by decide, by decide, by decide, by decide, by decide,
    by decide, by decide⟩
  intro b hb
  rw [isClosedOn, resolveProps_bagIn b hb]
  cases hg : getField (.bag b) ["CLOSURE_IND", "CLOSR_IND"] with
  | none => simp
  | some v => simp [beq_iff_eq]

/-- Witness for C2's amended iff at a concrete bag: a lowercase
`closr_ind: " y "` entry makes `isClosed` true. -/
theorem isClosed_resolved_iff_witness :
    isClosedOn (.bagIn [("closr_ind", JVal.str " y ")]) = true :=
  (isClosed_resolved_iff.1 [("closr_ind", JVal.str " y ")] (by decide)).mpr
    ⟨.str " y ", by decide, by decide⟩

/-- C3 (counterexample): the claim quantifies over every property bag, but
a bag whose own truthy `properties` entry triggers the duck-typed preamble
is never inspected for its campsite count: here `DEFINED_CAMPSITES` is `5`
(> 0) yet `isCampsite` is false. -/
theorem isCampsite_literal_counterexample :
    lookupKey [("properties", JVal.str "p"), ("DEFINED_CAMPSITES", JVal.num 5)]
      "DEFINED_CAMPSITES" = some (.num 5) ∧
    ((5 : ℚ) > 0) ∧
    isCampsiteOn (.bagIn [("properties", JVal.str "p"),
      ("DEFINED_CAMPSITES", JVal.num 5)]) = false := by
  refine ⟨by decide, by norm_num, by decide⟩

/-- C3 (amended): for every bag with no truthy `properties` entry,
`isCampsite` is true iff the resolved campsite-count value coerces (strings
via decimal `parseFloat`) to a number strictly greater than zero; `"0"`,
`0`, `-1`, `"abc"` and absent give false, `"1"`, `2.5`, `100` give true. -/
theorem isCampsite_resolved_iff :
    (∀ b : PropBag, noTruthyProperties b = true →
      (isCampsiteOn (.bagIn b) = true ↔
        ∃ v q, getField (.bag b) ["DEFINED_CAMPSITES", "DFND_CAMP"] = some v ∧
          jsCoerceNum v = some q ∧ q > 0)) ∧
    isCampsiteOn (.bagIn [("DEFINED_CAMPSITES", JVal.str "0")]) = false ∧
    isCampsiteOn (.bagIn [("DEFINED_CAMPSITES", JVal.num 0)]) = false ∧
    isCampsiteOn (.bagIn [("DEFINED_CAMPSITES", JVal.num (-1))]) = false ∧
    isCampsiteOn (.bagIn [("DEFINED_CAMPSITES", JVal.str "abc")]) = false ∧
    isCampsiteOn (.bagIn ([] : PropBag)) = false ∧
    isCampsiteOn (.bagIn [("DEFINED_CAMPSITES", JVal.str "1")]) = true ∧
    isCampsiteOn (.bagIn [("DFND_CAMP", JVal.num (mkRat 5 2))]) = true ∧
    isCampsiteOn (.bagIn [("DEFINED_CAMPSITES", JVal.num 100)]) = true := by
  refine ⟨?_, by decide, by decide, by decide, by decide, by decide, by decide,
    by decide, by decide⟩
  intro b hb
  rw [isCampsiteOn, resolveProps_bagIn b hb]
  cases hg : getField (.bag b) ["DEFINED_CAMPSITES", "DFND_CAMP"] with
  | none => simp
  | some v =>
    cases hc : jsCoerceNum v with
    | none => simp [hc]
    | some q => simp [hc, decide_eq_true_eq]

/-- Witness for C3's amended iff at a concrete bag: `DFND_CAMP: "2.5"`. -/
theorem isCampsite_resolved_iff_witness :
    isCampsiteOn (.bagIn [("DFND_CAMP", JVal.str "2.5")]) = true :=
  (isCampsite_resolved_iff.1 [("DFND_CAMP", JVal.str "2.5")] (by decide)).mpr
    ⟨.str "2.5", mkRat 5 2, by decide, by decide, by norm_num [mkRat, Rat.normalize]⟩

/-- C9 (counterexample): a feature whose (non-null) properties bag itself
holds a truthy `properties` entry: on the feature the predicate reads the
bag and sees `CLOSURE_IND: "Y"`, on the bare bag it descends into the
`properties` string and finds nothing. -/
theorem predicate_polymorphism_counterexample :
    (Feature.mk (some [("properties", JVal.str "q"),
      ("CLOSURE_IND", JVal.str "Y")])).properties
      = some [("properties", JVal.str "q"), ("CLOSURE_IND", JVal.str "Y")] ∧
    isClosedOn (.featIn ⟨some [("properties", JVal.str "q"),
      ("CLOSURE_IND", JVal.str "Y")]⟩) = true ∧
    isClosedOn (.bagIn [("properties", JVal.str "q"),
      ("CLOSURE_IND", JVal.str "Y")]) = false := by
  decide

/-- C9 (amended): for every feature with a non-null properties bag that
does not itself contain a truthy `properties` entry, calling each predicate
on the feature equals calling it on the bare bag. -/
theorem predicate_polymorphism (f : Feature) (b : PropBag)
    (hf : f.properties = some b) (hb : noTruthyProperties b = true) :
    isClosedOn (.featIn f) = isClosedOn (.bagIn b) ∧
    isCampsiteOn (.featIn f) = isCampsiteOn (.bagIn b) := by
  have h1 : resolveProps (.featIn f) = .bag b := by simp [resolveProps, hf]
  have h2 : resolveProps (.bagIn b) = .bag b := resolveProps_bagIn b hb
  rw [isClosedOn, isClosedOn, isCampsiteOn, isCampsiteOn, h1, h2]
  exact ⟨rfl, rfl⟩

/-- Witness for C9's amended equivalence at a concrete feature. -/
theorem predicate_polymorphism_witness :
    isClosedOn (.featIn ⟨some [("CLOSURE_IND", JVal.str "Y")]⟩)
      = isClosedOn (.bagIn [("CLOSURE_IND", JVal.str "Y")]) ∧
    isCampsiteOn (.featIn ⟨some [("CLOSURE_IND", JVal.str "Y")]⟩)
      = isCampsiteOn (.bagIn [("CLOSURE_IND", JVal.str "Y")]) :=
  predicate_polymorphism ⟨some [("CLOSURE_IND", JVal.str "Y")]⟩
    [("CLOSURE_IND", JVal.str "Y")] rfl (by decide)

/-- C10: the resolver and both predicates are total on missing input:
`getField(null, names)` is the absent sentinel, and `isClosed`/`isCampsite`
return `false` on `null`/`undefined` and on a feature whose `properties`
is null or absent (in the embedding all functions are total, so no call
throws). -/
theorem predicates_total_on_missing :
    (∀ names, getField .missing names = none) ∧
    isClosedOn .jsNull = false ∧
    isCampsiteOn .jsNull = false ∧
    (∀ f : Feature, f.properties = none →
      isClosedOn (.featIn f) = false ∧ isCampsiteOn (.featIn f) = false) := by
  refine ⟨?_, by decide, by decide, ?_⟩
  · intro names; simp [getField, propsFalsy]
  · intro f hf
    have hr : resolveProps (.featIn f) = .bag (featureAsProps f) := by
      simp [resolveProps, hf]
    have hb : featureAsProps f
        = [("type", JVal.str "Feature"), ("properties", JVal.jnull),
           ("geometry", JVal.jnull)] := rfl
    rw [hb] at hr
    constructor
    · simp only [isClosedOn, hr]; decide
    · simp only [isCampsiteOn, hr]; decide

/-- Witness for C10 at concrete inputs: `getField` on `null` with the
closure candidates, and the predicates on a feature with null properties. -/
theorem predicates_total_on_missing_witness :
    getField .missing ["CLOSURE_IND", "CLOSR_IND"] = none ∧
    isClosedOn (.featIn ⟨none⟩) = false ∧ isCampsiteOn (.featIn ⟨none⟩) = false :=
  ⟨predicates_total_on_missing.1 ["CLOSURE_IND", "CLOSR_IND"],
   (predicates_total_on_missing.2.2.2 ⟨none⟩ rfl).1,
   (predicates_total_on_missing.2.2.2 ⟨none⟩ rfl).2⟩

/-- C5 (counterexample): the claim's "magnitude exceeds 1,000,000,000" rule
and its "never returns empty for a non-empty input" clause both fail on the
code.  `"-2000000000000"` converts to a number of magnitude above the
threshold, yet the code (which tests the *signed* value) hands the raw
string to the date parser and falls back to the input unchanged, while the
spec's magnitude reading (`formatClosureDateSpec`) renders the epoch date
`8/16/1906`; and the non-empty input `0` (a stored numeric zero) is falsy,
so the code returns the empty string rather than `"0"`. -/
theorem formatClosureDate_magnitude_counterexample :
    jsStrToNum "-2000000000000" = some (-2000000000000) ∧
    ((-2000000000000 : ℚ) < -1000000000) ∧
    formatClosureDate (some (.str "-2000000000000")) = "-2000000000000" ∧
    formatClosureDateSpec (some (.str "-2000000000000")) = "8/16/1906" ∧
    formatClosureDate (some (.num 0)) = "" := by
  refine ⟨by decide, by decide, by decide, by decide, by decide⟩

/-- C5 (amended): falsy input (absent, null, `""`, numeric `0`) yields
`""`; for truthy input, when `Number` succeeds and the *signed* value
exceeds 1,000,000,000 the value is taken as epoch milliseconds (rendered
as a locale date when it is a valid time value, otherwise falling back to
the string form); otherwise the raw string is parsed as a calendar date,
an invalid date returning the original string unchanged; the function is
total and a truthy input never yields an empty result.  In particular
`1700000000000` renders the calendar date `11/14/2023`, `"not a date"` is
returned unchanged, and `""`, `null` and absent input yield `""`. -/
theorem formatClosureDate_characterization :
    (∀ v : Option JVal, truthyOpt v = false → formatClosureDate v = "") ∧
    (∀ w : JVal, truthy w = true →
      (∀ q : ℚ, jsStrToNum (jsToString w) = some q → q > 1000000000 →
        formatClosureDate (some w)
          = if dateFromMsValid (ratTrunc q) then jsLocaleDate (ratTrunc q)
            else jsToString w) ∧
      (∀ q : ℚ, jsStrToNum (jsToString w) = some q → ¬(q > 1000000000) →
        formatClosureDate (some w)
          = match jsDateParse (jsToString w) with
            | some ms => jsLocaleDate ms
            | none => jsToString w) ∧
      (jsStrToNum (jsToString w) = none →
        formatClosureDate (some w)
          = match jsDateParse (jsToString w) with
            | some ms => jsLocaleDate ms
            | none => jsToString w) ∧
      formatClosureDate (some w) ≠ "") ∧
    formatClosureDate (some (.num 1700000000000)) = "11/14/2023" ∧
    formatClosureDate (some (.str "not a date")) = "not a date" ∧
    formatClosureDate none = "" ∧
    formatClosureDate (some .jnull) = "" ∧
    formatClosureDate (some (.str "")) = "" := by
  have hbody : ∀ w : JVal, truthy w = true →
      formatClosureDate (some w)
        = match (match jsStrToNum (jsToString w) with
                 | some q =>
                   if q > 1000000000 then
                     (if dateFromMsValid (ratTrunc q) then some (ratTrunc q)
                      else none)
                   else jsDateParse (jsToString w)
                 | none => jsDateParse (jsToString w)) with
          | some ms => jsLocaleDate ms
          | none => jsToString w := by
    intro w htr
    rw [formatClosureDate, htr]
    simp
  refine ⟨?_, ?_, by decide, by decide, rfl, by decide, by decide⟩
  · intro v hv
    cases v with
    | none => rfl
    | some w =>
      rw [formatClosureDate]
      rw [truthyOpt] at hv
      rw [hv]
      simp
  · intro w htr
    refine ⟨?_, ?_, ?_, ?_⟩
    · intro q hq hgt
      rw [hbody w htr, hq]
      simp only [if_pos hgt]
      cases hd : dateFromMsValid (ratTrunc q) <;> simp [hd]
    · intro q hq hgt
      rw [hbody w htr, hq]
      simp [hgt]
    · intro hq
      rw [hbody w htr, hq]
    · rw [hbody w htr]
      cases hsn : (match jsStrToNum (jsToString w) with
                   | some q =>
                     if q > 1000000000 then
                       (if dateFromMsValid (ratTrunc q) then some (ratTrunc q)
                        else none)
                     else jsDateParse (jsToString w)
                   | none => jsDateParse (jsToString w)) with
      | none => exact jsToString_ne_empty_of_truthy w htr
      | some ms => exact jsLocaleDate_ne_empty ms

/-- Witness for C5's conditional clauses at concrete inputs: the epoch
branch at `1700000000000`, the small-number branch at `"7"`, and the NaN
branch at `"not a date"`, each discharged through the characterization. -/
theorem formatClosureDate_characterization_witness :
    formatClosureDate (some (.num 1700000000000))
      = (if dateFromMsValid (ratTrunc 1700000000000) then
          jsLocaleDate (ratTrunc 1700000000000)
        else jsToString (.num 1700000000000)) ∧
    formatClosureDate (some (.str "7"))
      = (match jsDateParse (jsToString (.str "7")) with
         | some ms => jsLocaleDate ms
         | none => jsToString (.str "7")) ∧
    formatClosureDate (some (.str "not a date"))
      = (match jsDateParse (jsToString (.str "not a date")) with
         | some ms => jsLocaleDate ms
         | none => jsToString (.str "not a date")) ∧
    formatClosureDate (some (.str "x")) ≠ "" ∧
    formatClosureDate (some (.num 0)) = "" :=
  ⟨((formatClosureDate_characterization.2.1 (.num 1700000000000) (by decide)).1
      1700000000000 (by decide) (by decide)),
   ((formatClosureDate_characterization.2.1 (.str "7") (by decide)).2.1
      7 (by decide) (by decide)),
   ((formatClosureDate_characterization.2.1 (.str "not a date")
      (by decide)).2.2.1 (by decide)),
   ((formatClosureDate_characterization.2.1 (.str "x") (by decide)).2.2.2),
   (formatClosureDate_characterization.1 (some (.num 0)) (by decide))⟩

set_option maxRecDepth 100000 in
/-- C6: for every feature whose campsite-count, location, description and
directions attributes are absent and whose forest file id resolves to
`"REC5810"`, the popup is exactly the template around the name, the status
line and the two official links (whose literal form, containing both
`REC5810` URLs, is spelled out): every optional segment is the empty
string, so no `Location:` line and no `undefined` placeholder can appear;
moreover the closure reason, normalized closure date and closure comment
segments are non-empty exactly when the feature is closed and the
corresponding value is non-empty (in particular an open feature's status
line is the bare open-status literal). -/
theorem popup_omits_absent_segments :
    (∀ (f : Feature) (b : PropBag), f.properties = some b →
      getField (.bag b) ["DEFINED_CAMPSITES", "DFND_CAMP"] = none →
      getField (.bag b) ["SITE_LOCATION", "SITE_LOC"] = none →
      getField (.bag b) ["SITE_DESCRIPTION", "ST_DESC"] = none →
      getField (.bag b) ["DRIVING_DIRECTIONS", "DRV_DIRCTN"] = none →
      getField (.bag b) ["FOREST_FILE_ID", "F_FILE_ID"] = some (.str "REC5810") →
      popupForFeature f
        = mkPopup (jsToString (nameValOf b)) (statusHtmlOf b) "" "" "" ""
            (linksHtml "REC5810")) ∧
    linksHtml "REC5810"
      = "\n      <br/><br/>\n      <strong>Official info &amp; fees:</strong><br/>\n      <a href=\"https://beta.sitesandtrailsbc.ca/resource/REC5810\" target=\"_blank\" rel=\"noopener\">Beta site page</a><br/>\n      <a href=\"https://www.sitesandtrailsbc.ca/search/search-result.aspx?site=REC5810&type=Site\" target=\"_blank\" rel=\"noopener\">Original site page</a>\n    " ∧
    (∀ b : PropBag, closedOf b = false →
      statusHtmlOf b = "<strong>Status: Open (check latest info)</strong><br/>") ∧
    (∀ b : PropBag, reasonSegOf b ≠ "" ↔
      closedOf b = true ∧ truthy (closureTypeValOf b) = true) ∧
    (∀ b : PropBag, sinceSegOf b ≠ "" ↔
      closedOf b = true ∧ truthy (closureDateValOf b) = true) ∧
    (∀ b : PropBag, commentSegOf b ≠ "" ↔
      closedOf b = true ∧ truthy (closureCommentValOf b) = true) := by
  refine ⟨?_, by rw [linksHtml]; decide, ?_, ?_, ?_, ?_⟩
  · intro f b hf h1 h2 h3 h4 h5
    have e1 : campsiteHtmlOf b = "" := by rw [campsiteHtmlOf, h1]
    have e2 : locationHtmlOf b = "" := by rw [locationHtmlOf, h2]; decide
    have e3 : descHtmlOf b = "" := by rw [descHtmlOf, h3]; decide
    have e4 : dirHtmlOf b = "" := by rw [dirHtmlOf, h4]; decide
    have e5 : officialLinksOf b = linksHtml "REC5810" := by
      rw [officialLinksOf, h5,
        show orEmptyVal (some (JVal.str "REC5810")) = JVal.str "REC5810" from rfl,
        if_pos (show truthy (JVal.str "REC5810") = true by decide)]
      exact congrArg linksHtml (by rfl)
    rw [popupForFeature, hf, Option.getD_some, popupFor, e1, e2, e3, e4, e5]
  · intro b hb
    rw [statusHtmlOf, reasonSegOf, sinceSegOf, commentSegOf, hb]
    simp
  · intro b
    rw [reasonSegOf, ← Bool.and_eq_true]
    split
    next h =>
      simp only [h, iff_true]
      exact append_ne_empty_right _ "<br/>" (by decide)
    next h => simp [h]
  · intro b
    rw [sinceSegOf, ← Bool.and_eq_true]
    split
    next h =>
      simp only [h, iff_true]
      exact append_ne_empty_right _ "<br/>" (by decide)
    next h => simp [h]
  · intro b
    rw [commentSegOf, ← Bool.and_eq_true]
    split
    next h =>
      simp only [h, iff_true]
      exact append_ne_empty_right _ "</em><br/>" (by decide)
    next h => simp [h]

/-- Witness for C6 at a concrete feature: only a forest file id is present,
so the popup is the name/status/links template with all optional segments
empty. -/
theorem popup_omits_absent_segments_witness :
    popupForFeature ⟨some [("FOREST_FILE_ID", JVal.str "REC5810")]⟩
      = mkPopup (jsToString (nameValOf [("FOREST_FILE_ID", JVal.str "REC5810")]))
          (statusHtmlOf [("FOREST_FILE_ID", JVal.str "REC5810")]) "" "" "" ""
          (linksHtml "REC5810") :=
  popup_omits_absent_segments.1 ⟨some [("FOREST_FILE_ID", JVal.str "REC5810")]⟩
    [("FOREST_FILE_ID", JVal.str "REC5810")] rfl (by decide) (by decide)
    (by decide) (by decide) (by decide)

end Campspots
